import Mathlib

/-!
Shallow embedding of the `front_detection` repository
(`src/front_detection/__init__.py`) and proofs about its specification.

Grids are total functions from row/column indices to optional reals:
`none` models a numpy NaN ("missing") cell.  Arithmetic propagates `none`
the way IEEE NaN propagates through numpy arithmetic, and comparisons
involving `none` are `False`, matching NaN comparison semantics.
Division by zero is modelled as `none` (numpy would produce `inf` or `nan`
together with a runtime warning; no property proved below depends on the
distinction, and every theorem that needs a nonzero denominator assumes it
explicitly).  The plotting library's contour engine, which the source
borrows purely for its geometry output, is external to the repository and
is modelled from the spec (see `contourVertices`).
-/

namespace FrontDetection

/-- A numpy float value: `none` is NaN. -/
abbrev OR := Option ℝ

/-- A 2-D numpy float array; the shape `(m, n)` is carried separately by
each operation, as in the source where it is implicit in the array. -/
def Grid : Type := ℕ → ℕ → OR

/-- NaN-propagating addition. -/
def oadd : OR → OR → OR
  | some a, some b => some (a + b)
  | _, _ => none

/-- NaN-propagating subtraction. -/
def osub : OR → OR → OR
  | some a, some b => some (a - b)
  | _, _ => none

/-- NaN-propagating multiplication. -/
def omul : OR → OR → OR
  | some a, some b => some (a * b)
  | _, _ => none

/-- NaN-propagating division; division by zero is modelled as missing. -/
noncomputable def odiv : OR → OR → OR
  | some a, some b => if b = 0 then none else some (a / b)
  | _, _ => none

/-- NaN-propagating negation. -/
def oneg : OR → OR := Option.map (fun a => -a)

/-- NaN-propagating absolute value (`np.abs`). -/
def oabs : OR → OR := Option.map (fun a => |a|)

/-- NaN-propagating square root (`np.sqrt`). -/
noncomputable def osqrt : OR → OR := Option.map Real.sqrt

/-- NaN-propagating sine (`np.sin`). -/
noncomputable def osin : OR → OR := Option.map Real.sin

/-- NaN-propagating cosine (`np.cos`). -/
noncomputable def ocos : OR → OR := Option.map Real.cos

/-- NaN-propagating arccosine (`np.arccos`). -/
noncomputable def oarccos : OR → OR := Option.map Real.arccos

/-- Strict comparison: false whenever either side is NaN, as in numpy. -/
def olt : OR → OR → Prop
  | some a, some b => a < b
  | _, _ => False

/-- Non-strict comparison: false whenever either side is NaN, as in numpy. -/
def ole : OR → OR → Prop
  | some a, some b => a ≤ b
  | _, _ => False

noncomputable instance : ∀ a b : OR, Decidable (olt a b)
  | some a, some b => inferInstanceAs (Decidable (a < b))
  | some _, none => isFalse (fun h => h)
  | none, _ => isFalse (fun h => h)

noncomputable instance : ∀ a b : OR, Decidable (ole a b)
  | some a, some b => inferInstanceAs (Decidable (a ≤ b))
  | some _, none => isFalse (fun h => h)
  | none, _ => isFalse (fun h => h)

@[simp] theorem oadd_some_some (a b : ℝ) : oadd (some a) (some b) = some (a + b) := rfl
@[simp] theorem oadd_none_left (b : OR) : oadd none b = none := by cases b <;> rfl
@[simp] theorem oadd_none_right (a : OR) : oadd a none = none := by cases a <;> rfl
@[simp] theorem osub_some_some (a b : ℝ) : osub (some a) (some b) = some (a - b) := rfl
@[simp] theorem osub_none_left (b : OR) : osub none b = none := by cases b <;> rfl
@[simp] theorem osub_none_right (a : OR) : osub a none = none := by cases a <;> rfl
@[simp] theorem omul_some_some (a b : ℝ) : omul (some a) (some b) = some (a * b) := rfl
@[simp] theorem omul_none_left (b : OR) : omul none b = none := by cases b <;> rfl
@[simp] theorem omul_none_right (a : OR) : omul a none = none := by cases a <;> rfl
@[simp] theorem odiv_some_some (a b : ℝ) :
    odiv (some a) (some b) = if b = 0 then none else some (a / b) := rfl
@[simp] theorem odiv_none_left (b : OR) : odiv none b = none := by cases b <;> rfl
@[simp] theorem odiv_none_right (a : OR) : odiv a none = none := by cases a <;> rfl
@[simp] theorem oneg_some (a : ℝ) : oneg (some a) = some (-a) := rfl
@[simp] theorem oneg_none : oneg none = none := rfl
@[simp] theorem oabs_some (a : ℝ) : oabs (some a) = some |a| := rfl
@[simp] theorem oabs_none : oabs none = none := rfl
@[simp] theorem osqrt_some (a : ℝ) : osqrt (some a) = some (Real.sqrt a) := rfl
@[simp] theorem osqrt_none : osqrt none = none := rfl
@[simp] theorem osin_some (a : ℝ) : osin (some a) = some (Real.sin a) := rfl
@[simp] theorem osin_none : osin none = none := rfl
@[simp] theorem ocos_some (a : ℝ) : ocos (some a) = some (Real.cos a) := rfl
@[simp] theorem ocos_none : ocos none = none := rfl
@[simp] theorem oarccos_some (a : ℝ) : oarccos (some a) = some (Real.arccos a) := rfl
@[simp] theorem oarccos_none : oarccos none = none := rfl
@[simp] theorem olt_some_some (a b : ℝ) : olt (some a) (some b) ↔ a < b := Iff.rfl
@[simp] theorem olt_none_left (b : OR) : ¬ olt none b := fun h => h
@[simp] theorem olt_none_right (a : OR) : ¬ olt a none := by cases a <;> exact fun h => h
@[simp] theorem ole_some_some (a b : ℝ) : ole (some a) (some b) ↔ a ≤ b := Iff.rfl
@[simp] theorem ole_none_left (b : OR) : ¬ ole none b := fun h => h
@[simp] theorem ole_none_right (a : OR) : ¬ ole a none := by cases a <;> exact fun h => h

/-- `np.nansum` over a stack of values: missing entries are skipped and an
all-missing stack sums to `0`, exactly as in numpy. -/
def nansum (l : List OR) : ℝ := (l.map (fun a => a.getD 0)).sum

/-- `np.double(~np.isnan(x))`: 1 for a present value, 0 for NaN. -/
def present : OR → ℝ
  | some _ => 1
  | none => 0

@[simp] theorem present_some (a : ℝ) : present (some a) = 1 := rfl
@[simp] theorem present_none : present none = 0 := rfl

/-! ### Grid shifts (`four_corner_shift`, source lines 32-39)

`up` pads the top row with NaN and holds the value of the cell above;
`down` pads the bottom row with NaN and holds the value of the cell below;
`left`/`right` wrap circularly in the column (longitude) direction via
`np.roll`. -/

/-- Row shift exposing the cell above; NaN in row 0. -/
def up_shift (g : Grid) : Grid := fun i j => if i = 0 then none else g (i - 1) j

/-- Row shift exposing the cell below; NaN in the last row of an `m`-row grid. -/
def down_shift (m : ℕ) (g : Grid) : Grid := fun i j => if i + 1 < m then g (i + 1) j else none

/-- Column shift exposing the cell to the right, wrapping (`np.roll` by -1). -/
def left_shift (n : ℕ) (g : Grid) : Grid := fun i j => g i ((j + 1) % n)

/-- Column shift exposing the cell to the left, wrapping (`np.roll` by +1). -/
def right_shift (n : ℕ) (g : Grid) : Grid := fun i j => g i ((j + n - 1) % n)

/-- Source `four_corner_shift` with `shift_len=1`: the four shifted copies
`(up, down, left, right)`. -/
def four_corner_shift (m n : ℕ) (arr : Grid) : Grid × Grid × Grid × Grid :=
  (up_shift arr, down_shift m arr, left_shift n arr, right_shift n arr)

/-! ### Great-circle distance (`dist_between_grids`, source lines 470-478) -/

/-- Law-of-cosines spherical distance between two points, in meters, with
Earth radius 6378206.4 m.  The cosine argument is clamped into `[-1, 1]` by
the two masked assignments of the source before `arccos`. -/
noncomputable def distCell (lat0 lon0 lat1 lon1 : OR) : OR :=
  let d : OR := some (Real.pi / 180)
  let cosc := oadd (omul (osin (omul lat0 d)) (osin (omul lat1 d)))
    (omul (omul (ocos (omul lat0 d)) (ocos (omul lat1 d))) (ocos (omul d (osub lon1 lon0))))
  let c1 := if olt cosc (some (-1)) then some (-1) else cosc
  let c2 := if olt (some 1) c1 then some 1 else c1
  omul (oarccos c2) (some 6378206.4)

/-- Source `dist_between_grids`, applied cell-for-cell over four grids. -/
noncomputable def dist_between_grids (lat0 lon0 lat1 lon1 : Grid) : Grid :=
  fun i j => distCell (lat0 i j) (lon0 i j) (lat1 i j) (lon1 i j)

/-- C7: for every coordinate point `p` with (finite) latitude and longitude,
`greatCircleDistance(p, p)` is exactly `0`: the cosine argument evaluates to
`sin² + cos² = 1`, survives the `[-1, 1]` clamp unchanged, and `arccos 1 = 0`. -/
theorem c7_zero_self_distance (la lo : ℝ) :
    distCell (some la) (some lo) (some la) (some lo) = some 0 := by
  unfold distCell
  have hc : Real.sin (la * (Real.pi / 180)) * Real.sin (la * (Real.pi / 180)) +
      Real.cos (la * (Real.pi / 180)) * Real.cos (la * (Real.pi / 180)) *
        Real.cos (Real.pi / 180 * (lo - lo)) = 1 := by
    rw [sub_self, mul_zero, Real.cos_zero, mul_one, ← Real.sin_sq_add_cos_sq (la * (Real.pi / 180))]
    ring
  simp only [osin_some, ocos_some, omul_some_some, osub_some_some, oadd_some_some, hc]
  norm_num [olt_some_some, oarccos_some, omul_some_some, Real.arccos_one]

/-! ### Geodesic gradient (`geo_gradient`, source lines 480-502) -/

/-- Source `geo_gradient`: distance-weighted centered differences.  Returns
`(dx, dy)`.  Left/right longitude copies get the ±360° wrap correction on
the seam columns before any distance computation (source lines 486-487). -/
noncomputable def geo_gradient (m n : ℕ) (lat lon data : Grid) : Grid × Grid :=
  let data_up := up_shift data
  let data_down := down_shift m data
  let data_left := left_shift n data
  let data_right := right_shift n data
  let lat_up := up_shift lat
  let lat_down := down_shift m lat
  let lat_left := left_shift n lat
  let lat_right := right_shift n lat
  let lon_up := up_shift lon
  let lon_down := down_shift m lon
  let lon_left : Grid := fun i j =>
    if j = n - 1 then oadd (left_shift n lon i j) (some 360) else left_shift n lon i j
  let lon_right : Grid := fun i j =>
    if j = 0 then osub (right_shift n lon i j) (some 360) else right_shift n lon i j
  let dy1 := dist_between_grids lat_down lon_down lat lon
  let dy2 := dist_between_grids lat_up lon_up lat lon
  let dy : Grid := fun i j =>
    odiv (oadd (osub (data i j) (data_up i j)) (osub (data_down i j) (data i j)))
      (oadd (dy1 i j) (dy2 i j))
  let dx1 := dist_between_grids lat_left lon_left lat lon
  let dx2 := dist_between_grids lat lon lat_right lon_right
  let dx : Grid := fun i j =>
    odiv (oadd (osub (data i j) (data_right i j)) (osub (data_left i j) (data i j)))
      (oadd (dx1 i j) (dx2 i j))
  (dx, dy)

/-- Fixture for C3: a 2×1 grid with latitude rows 0° and 30°, constant
longitude 0° and a constant field (value 5), i.e. a field that is exactly
linear in physical distance with constant true gradient 0. -/
def c3lat : Grid := fun i _ => some ((30 : ℝ) * i)

/-- Fixture for C3: constant longitude 0°. -/
def c3lon : Grid := fun _ _ => some 0

/-- Fixture for C3: constant field, constant true gradient 0. -/
def c3dat : Grid := fun _ _ => some 5

/-- C3 counterexample: on the 2×1 constant field (a field exactly linear in
physical distance with constant gradient 0), the y-component of
`geo_gradient` at the top-edge cell `(0,0)` is missing (`none`), not the
one-sided difference `0` the claim promises: the NaN padded by
`four_corner_shift` propagates through both the numerator and the distance
denominator. -/
theorem c3_counterexample :
    (∀ i j, c3dat i j = some 5) ∧ (geo_gradient 2 1 c3lat c3lon c3dat).2 0 0 = none := by
  refine ⟨fun i j => rfl, ?_⟩
  unfold geo_gradient
  simp [up_shift, c3dat]

/-- C3 amended: for a field exactly linear in physical distance along the
meridional axis (the two one-sided differences are `c` times the
corresponding embedded great-circle distances), the y-component of
`geo_gradient` recovers the constant `c` exactly at any cell whose upper and
lower neighbors are present — but at a top-edge cell (row 0) the result is
missing, not a one-sided difference. -/
theorem c3_amended (m n : ℕ) (lat lon data : Grid) (i j j' : ℕ) (c d1 d2 : ℝ)
    (hd1 : dist_between_grids (down_shift m lat) (down_shift m lon) lat lon i j = some d1)
    (hd2 : dist_between_grids (up_shift lat) (up_shift lon) lat lon i j = some d2)
    (hsum : d1 + d2 ≠ 0)
    (h1 : osub (down_shift m data i j) (data i j) = some (c * d1))
    (h2 : osub (data i j) (up_shift data i j) = some (c * d2)) :
    (geo_gradient m n lat lon data).2 i j = some c ∧
      (geo_gradient m n lat lon data).2 0 j' = none := by
  constructor
  · unfold geo_gradient
    simp only [h1, h2, hd1, hd2, oadd_some_some, odiv_some_some]
    rw [if_neg hsum]
    congr 1
    field_simp
    ring
  · unfold geo_gradient
    simp [up_shift]

/-- Witness fixture for C3: a 3×1 grid with latitude rows 0°, 90°, 180°. -/
def c3wlat : Grid := fun i _ => if i = 0 then some 0 else if i = 1 then some 90 else some 180

/-- Witness fixture for C3: constant longitude 0°. -/
def c3wlon : Grid := fun _ _ => some 0

/-- Witness fixture for C3: constant field (gradient 0). -/
def c3wdat : Grid := fun _ _ => some 5

theorem c3_witness :
    (geo_gradient 3 1 c3wlat c3wlon c3wdat).2 1 0 = some 0 ∧
      (geo_gradient 3 1 c3wlat c3wlon c3wdat).2 0 0 = none := by
  have e1 : (180 : ℝ) * (Real.pi / 180) = Real.pi := by ring
  have e2 : (90 : ℝ) * (Real.pi / 180) = Real.pi / 2 := by ring
  have key1 : distCell (some 180) (some 0) (some 90) (some 0) =
      some (Real.pi / 2 * 6378206.4) := by
    unfold distCell
    simp only [osin_some, ocos_some, omul_some_some, osub_some_some, oadd_some_some, e1, e2]
    norm_num [Real.sin_pi, Real.sin_pi_div_two, Real.cos_pi, Real.cos_pi_div_two,
      Real.arccos_zero, olt_some_some, oarccos_some, omul_some_some]
  have key2 : distCell (some 0) (some 0) (some 90) (some 0) =
      some (Real.pi / 2 * 6378206.4) := by
    unfold distCell
    simp only [osin_some, ocos_some, omul_some_some, osub_some_some, oadd_some_some, e2]
    norm_num [Real.sin_pi_div_two, Real.cos_pi_div_two, Real.arccos_zero,
      olt_some_some, oarccos_some, omul_some_some]
  have hd1 : dist_between_grids (down_shift 3 c3wlat) (down_shift 3 c3wlon)
      c3wlat c3wlon 1 0 = some (Real.pi / 2 * 6378206.4) := by
    unfold dist_between_grids
    simp only [down_shift, c3wlat, c3wlon]
    norm_num [key1]
  have hd2 : dist_between_grids (up_shift c3wlat) (up_shift c3wlon)
      c3wlat c3wlon 1 0 = some (Real.pi / 2 * 6378206.4) := by
    unfold dist_between_grids
    simp only [up_shift, c3wlat, c3wlon]
    norm_num [key2]
  have hsum : Real.pi / 2 * 6378206.4 + Real.pi / 2 * 6378206.4 ≠ 0 := by positivity
  have h1 : osub (down_shift 3 c3wdat 1 0) (c3wdat 1 0) =
      some (0 * (Real.pi / 2 * 6378206.4)) := by
    simp only [down_shift, c3wdat]
    norm_num
  have h2 : osub (c3wdat 1 0) (up_shift c3wdat 1 0) =
      some (0 * (Real.pi / 2 * 6378206.4)) := by
    simp only [up_shift, c3wdat]
    norm_num
  exact c3_amended 3 1 c3wlat c3wlon c3wdat 1 0 0 0 _ _ hd1 hd2 hsum h1 h2

/-! ### Wind-shift front detector (`simmonds_et_al_2012`, source lines 172-199)

The source evaluates the condition elementwise over six equally shaped
grids; the embedding below is the per-cell predicate (`lonGrid` is accepted
and ignored, exactly as in the source). -/

/-- Source `simmonds_et_al_2012`, per cell.  Returns `np.double(cond)`:
`1` when the cold-front condition holds, else `0`; comparisons against NaN
are false, so a missing input can only yield `0`. -/
noncomputable def simmonds_et_al_2012 (latGrid lonGrid u_prior v_prior u v : OR) : ℝ :=
  if olt (some 0) u ∧ olt (some 0) u_prior ∧
      ((olt (some 0) v ∧ olt latGrid (some 0)) ∨ (olt v (some 0) ∧ olt (some 0) latGrid)) ∧
      olt (omul v v_prior) (some 0) ∧
      olt (some 2) (oabs (osub (oabs v) (oabs v_prior))) ∧
      olt (oabs latGrid) (some 80) then 1 else 0

/-- C2 counterexample: with `lat=10, u_prior=1, v_prior=-3, u=1, v=1.5` the
wind-shift detector does *not* flag a cold front — the directional condition
requires `v < 0` in the northern hemisphere (`lat > 0`), but `v = 1.5 > 0`;
moreover `magDiff = |1.5 - 3| = 1.5` is not `> 2` (the spec's `2.5` is a
miscalculation).  The claim says this cell is flagged. -/
theorem c2_counterexample :
    simmonds_et_al_2012 (some 10) (some 0) (some 1) (some (-3)) (some 1) (some 1.5) = 0 := by
  unfold simmonds_et_al_2012
  rw [if_neg]
  rintro ⟨-, -, hdir, -⟩
  rcases hdir with ⟨hv, hlat⟩ | ⟨hv, hlat⟩
  · rw [olt_some_some] at hlat; norm_num at hlat
  · rw [olt_some_some] at hv; norm_num at hv

/-- C2 amended: at `lat=10, u_prior=1, v_prior=-3, u=1` the detector flags
nothing for `v=1` (as the claim says) and also nothing for `v=1.5`: with
`lat > 0` the directional branch requires `v < 0`, which both values
violate (and for `v=1.5` the magnitude change `1.5` is not `> 2` either). -/
theorem c2_amended :
    simmonds_et_al_2012 (some 10) (some 0) (some 1) (some (-3)) (some 1) (some 1) = 0 ∧
      simmonds_et_al_2012 (some 10) (some 0) (some 1) (some (-3)) (some 1) (some 1.5) = 0 := by
  constructor <;>
  · unfold simmonds_et_al_2012
    rw [if_neg]
    rintro ⟨-, -, hdir, -⟩
    rcases hdir with ⟨hv, hlat⟩ | ⟨hv, hlat⟩
    · rw [olt_some_some] at hlat; norm_num at hlat
    · rw [olt_some_some] at hv; norm_num at hv

/-- C10: a missing (NaN) value in `lat`, `u_prior`, `v_prior`, `u` or `v`
yields output `0` at that cell — not a missing value: every comparison
against NaN is false, so the cold-front condition fails and
`np.double(False) = 0`. -/
theorem c10_missing_inputs_give_zero (latGrid lonGrid u_prior v_prior u v : OR)
    (h : latGrid = none ∨ u_prior = none ∨ v_prior = none ∨ u = none ∨ v = none) :
    simmonds_et_al_2012 latGrid lonGrid u_prior v_prior u v = 0 := by
  unfold simmonds_et_al_2012
  rw [if_neg]
  rintro ⟨hu, hup, hdir, hvv, -, hlat⟩
  rcases h with h | h | h | h | h <;> subst h
  · rcases hdir with ⟨-, h2⟩ | ⟨-, h2⟩ <;> simp at h2
  · simp at hup
  · simp at hvv
  · simp at hu
  · rcases hdir with ⟨h2, -⟩ | ⟨h2, -⟩ <;> simp at h2

/-- Witness for C10 at a concrete input: `u` missing, everything else
present, output `0`. -/
theorem c10_witness :
    simmonds_et_al_2012 (some 10) (some 0) (some 1) (some 3) none (some (-5.5)) = 0 :=
  c10_missing_inputs_give_zero (some 10) (some 0) (some 1) (some 3) none (some (-5.5))
    (Or.inr (Or.inr (Or.inr (Or.inl rfl))))

/-! ### Contour rasterizer (`mask_zero_contour`, source lines 331-361) -/

/-- Modelled from the spec: the zero-isoline vertex extraction that the
source borrows from the plotting library's contour engine
(`plt.contour(latGrid, lonGrid, data, levels=[0])`), which is external to
this repository.  Per spec §4.3 it is a marching-squares-style extraction of
zero-crossing polylines over the structured grid: for each horizontally or
vertically adjacent pair of grid centres whose field values straddle zero,
one linearly interpolated vertex is emitted.  The source passes `latGrid` as
the x-argument, so vertex first coordinates are latitudes.  A field with no
sign change yields no vertices ("empty contour"). -/
noncomputable def contourVertices (m n : ℕ) (lat lon data : Grid) : List (ℝ × ℝ) :=
  let seg : ℕ → ℕ → ℕ → ℕ → Option (ℝ × ℝ) := fun i1 j1 i2 j2 =>
    match lat i1 j1, lon i1 j1, data i1 j1, lat i2 j2, lon i2 j2, data i2 j2 with
    | some la1, some lo1, some v1, some la2, some lo2, some v2 =>
        if (v1 < 0 ∧ 0 ≤ v2) ∨ (v2 < 0 ∧ 0 ≤ v1) then
          some (la1 + v1 / (v1 - v2) * (la2 - la1), lo1 + v1 / (v1 - v2) * (lo2 - lo1))
        else none
    | _, _, _, _, _, _ => none
  ((List.range m).flatMap fun i => (List.range (n - 1)).filterMap fun j => seg i j i (j + 1)) ++
    ((List.range (m - 1)).flatMap fun i => (List.range n).filterMap fun j => seg i j (i + 1) j)

/-- Membership of a coordinate in histogram bin `k` of an edge list, with
numpy `histogram2d` semantics: bins are right-open except the last one,
which includes its right edge.  An edge that is missing (NaN coordinate
grid) matches nothing. -/
def inBin (edges : List OR) (k : ℕ) (x : ℝ) : Prop :=
  ole (edges.getD k none) (some x) ∧
    ((k + 2 = edges.length ∧ ole (some x) (edges.getD (k + 1) none)) ∨
      (k + 2 ≠ edges.length ∧ olt (some x) (edges.getD (k + 1) none)))

noncomputable instance (edges : List OR) (k : ℕ) (x : ℝ) : Decidable (inBin edges k x) := by
  unfold inBin
  infer_instance

/-- Source lines 346-359: bin the collected isoline vertices into cell
boundaries.  The edges are the first lat column (resp. first lon row)
shifted down by half of the *first* grid spacing, with one extra final edge
`(last - div/2) + div/2` appended; the output cell is `np.double(H > 0)`,
i.e. `1` exactly when at least one vertex falls in the cell's 2-D bin. -/
noncomputable def rasterize (m n : ℕ) (lat lon : Grid) (cdt : List (ℝ × ℝ)) : ℕ → ℕ → ℝ :=
  let lat_div := osub (lat 1 0) (lat 0 0)
  let lon_div := osub (lon 0 1) (lon 0 0)
  let lat_edges : List OR :=
    ((List.range m).map fun i => osub (lat i 0) (odiv lat_div (some 2))) ++
      [oadd (osub (lat (m - 1) 0) (odiv lat_div (some 2))) (odiv lat_div (some 2))]
  let lon_edges : List OR :=
    ((List.range n).map fun j => osub (lon 0 j) (odiv lon_div (some 2))) ++
      [oadd (osub (lon 0 (n - 1)) (odiv lon_div (some 2))) (odiv lon_div (some 2))]
  fun i j => if ∃ p ∈ cdt, inBin lat_edges i p.1 ∧ inBin lon_edges j p.2 then 1 else 0

/-- Source `mask_zero_contour`.  When the vertex collection loop never runs
(empty contour), `cdt` remains the 1-D empty array `np.asarray([])` and the
subsequent 2-D indexing `cdt[:, 0]` raises `IndexError`; that abnormal
termination is modelled as `none`.  (For grids with fewer than 2 rows or
columns the source also raises, slightly earlier, inside the contour call or
the edge computation.) -/
noncomputable def mask_zero_contour (m n : ℕ) (lat lon data : Grid) :
    Option (ℕ → ℕ → ℝ) :=
  match contourVertices m n lat lon data with
  | [] => none
  | cdt => some (rasterize m n lat lon cdt)

/-- Fixture: 2×2 coordinate grid, lat rows 0° and 10°, lon columns 0° and 10°. -/
def c1lat : Grid := fun i _ => if i = 0 then some 0 else some 10

/-- Fixture: lon columns 0° and 10°. -/
def c1lon : Grid := fun _ j => if j = 0 then some 0 else some 10

/-- Fixture: strictly positive field (all cells 1). -/
def c1dat : Grid := fun _ _ => some 1

/-- C1: on a strictly positive 2×2 field the zero contour is empty, and
`mask_zero_contour` does *not* return an all-zero mask: the source leaves
`cdt` as a 1-D empty array and `cdt[:, 0]` raises `IndexError` (modelled as
`none`).  This contradicts the claim (and the spec's stated intent, visible
in the dead `zc = np.zeros(...)` initialisation) that an empty contour is
not an error. -/
theorem c1_empty_contour_crashes : mask_zero_contour 2 2 c1lat c1lon c1dat = none := by
  unfold mask_zero_contour contourVertices
  norm_num [List.range_succ, c1lat, c1lon, c1dat]

/-- C8 counterexample: for the 2×2 grid with lat centers 0°, 10° (grid step
10, half-step 5), a vertex at latitude 12 — less than half a grid step
beyond the last grid center — is *not* binned into the last cell: the final
lat edge is `(10 - 5) + 5 = 10`, the last grid center itself, so the vertex
falls outside every bin and is dropped.  The claim says it is still binned
into the last cell (mask 1 at cell `(1,1)`). -/
theorem c8_counterexample : rasterize 2 2 c1lat c1lon [(12, 5)] 1 1 = 0 := by
  unfold rasterize
  rw [if_neg]
  rintro ⟨p, hp, hlat, -⟩
  simp only [List.mem_singleton] at hp
  subst hp
  norm_num [List.range_succ, c1lat, inBin, List.getD] at hlat

/-- C8 amended, on the same 2×2 grid (centers 0° and 10°, spacing 10): the
bin edges on each axis are the grid centers shifted down by half the first
spacing, plus one final edge equal to the *last grid center* (the appended
half-step cancels the shift already applied).  Hence a vertex up to half a
step *below* the first center is binned into the first cell, a vertex at the
last center itself is binned into the last cell (the last bin is
right-inclusive), but a vertex any distance *beyond* the last center is
dropped — it is not binned into the last cell. -/
theorem c8_amended (x : ℝ) :
    (10 < x → ∀ i j, rasterize 2 2 c1lat c1lon [(x, 5)] i j = 0) ∧
      (-5 ≤ x → x < 5 → rasterize 2 2 c1lat c1lon [(x, 5)] 0 1 = 1) ∧
      (5 ≤ x → x ≤ 10 → rasterize 2 2 c1lat c1lon [(x, 5)] 1 1 = 1) := by
  refine ⟨fun hx i j => ?_, fun hx1 hx2 => ?_, fun hx1 hx2 => ?_⟩
  · unfold rasterize
    rw [if_neg]
    rintro ⟨p, hp, hlat, -⟩
    simp only [List.mem_singleton] at hp
    subst hp
    rcases i with _ | _ | _ | i
    · norm_num [List.range_succ, c1lat, inBin, List.getD] at hlat
      linarith [hlat.2]
    · norm_num [List.range_succ, c1lat, inBin, List.getD] at hlat
      linarith [hlat.2]
    · norm_num [List.range_succ, c1lat, inBin, List.getD] at hlat
    · norm_num [List.range_succ, c1lat, inBin, List.getD] at hlat
  · unfold rasterize
    rw [if_pos]
    refine ⟨(x, 5), List.mem_singleton_self _, ?_, ?_⟩ <;>
      norm_num [List.range_succ, c1lat, c1lon, inBin, List.getD]
    exact ⟨hx1, hx2⟩
  · unfold rasterize
    rw [if_pos]
    refine ⟨(x, 5), List.mem_singleton_self _, ?_, ?_⟩ <;>
      norm_num [List.range_succ, c1lat, c1lon, inBin, List.getD]
    exact ⟨hx1, hx2⟩

/-- Witness for C8 amended at concrete vertices: latitude 12 (beyond the
last center) is dropped at every cell, latitude −4 (half a step below the
first center) lands in the first row, latitude 10 (the last center) lands in
the last row. -/
theorem c8_witness :
    rasterize 2 2 c1lat c1lon [((12 : ℝ), 5)] 1 1 = 0 ∧
      rasterize 2 2 c1lat c1lon [((-4 : ℝ), 5)] 0 1 = 1 ∧
      rasterize 2 2 c1lat c1lon [((10 : ℝ), 5)] 1 1 = 1 :=
  ⟨(c8_amended 12).1 (by norm_num) 1 1,
    (c8_amended (-4)).2.1 (by norm_num) (by norm_num),
    (c8_amended 10).2.2 (by norm_num) (by norm_num)⟩

/-! ### Norm, smoothing and atan2 (source lines 302-329, 70-74) -/

/-- Source `norm`: elementwise `np.sqrt(x**2 + y**2)`. -/
noncomputable def norm (x y : Grid) : Grid :=
  fun i j => osqrt (oadd (omul (x i j) (x i j)) (omul (y i j) (y i j)))

/-- One pass of source `smooth_grid`'s loop body: weighted 5-point stencil,
`np.nansum` numerator, count of non-NaN contributors as denominator; a cell
whose count is zero keeps its value. -/
noncomputable def smooth_step (m n : ℕ) (center_weight : ℝ) (g : Grid) : Grid := fun i j =>
  let u := up_shift g i j
  let d := down_shift m g i j
  let r := right_shift n g i j
  let l := left_shift n g i j
  let cnts : ℝ := present r + present l + present u + present d + present (g i j) * center_weight
  if cnts = 0 then g i j
  else some (nansum [omul (g i j) (some center_weight), r, l, u, d] / cnts)

/-- Source `smooth_grid`: `iter` passes of the stencil. -/
noncomputable def smooth_grid (m n : ℕ) (iter : ℕ) (center_weight : ℝ) (inGrid : Grid) : Grid :=
  (smooth_step m n center_weight)^[iter] inGrid

/-- `np.arctan2(y, x)` on reals (standard piecewise definition). -/
noncomputable def atan2R (y x : ℝ) : ℝ :=
  if 0 < x then Real.arctan (y / x)
  else if x < 0 ∧ 0 ≤ y then Real.arctan (y / x) + Real.pi
  else if x < 0 ∧ y < 0 then Real.arctan (y / x) - Real.pi
  else if x = 0 ∧ 0 < y then Real.pi / 2
  else if x = 0 ∧ y < 0 then -(Real.pi / 2)
  else 0

/-- NaN-propagating `np.arctan2`. -/
noncomputable def oatan2 : OR → OR → OR
  | some y, some x => some (atan2R y x)
  | _, _ => none

/-! ### Thermal-front detector (`hewson_1998`, source lines 46-167)

Each intermediate array of the source function is a definition below, in
source order.  `grad_abs_mux`/`grad_abs_muy` (line 53) and the scalar `n`
(line 85) are computed but never used by the source and are omitted.
The thresholds `k1`, `k2` are hard-coded in the source (line 60-61, values
in `k1_default`/`k2_default`); they are parameters here because the claims
quantify over them. -/

/-- Line 48: x-gradient of theta. -/
noncomputable def hew_gx (m n : ℕ) (latG lonG theta : Grid) : Grid :=
  (geo_gradient m n latG lonG theta).1

/-- Line 48: y-gradient of theta. -/
noncomputable def hew_gy (m n : ℕ) (latG lonG theta : Grid) : Grid :=
  (geo_gradient m n latG lonG theta).2

/-- Line 49: gradient magnitude. -/
noncomputable def hew_gNorm (m n : ℕ) (latG lonG theta : Grid) : Grid :=
  norm (hew_gx m n latG lonG theta) (hew_gy m n latG lonG theta)

/-- Line 50: x-component of the locating vector. -/
noncomputable def hew_mux (m n : ℕ) (latG lonG theta : Grid) : Grid :=
  (geo_gradient m n latG lonG (hew_gNorm m n latG lonG theta)).1

/-- Line 50: y-component of the locating vector. -/
noncomputable def hew_muy (m n : ℕ) (latG lonG theta : Grid) : Grid :=
  (geo_gradient m n latG lonG (hew_gNorm m n latG lonG theta)).2

/-- Line 52: magnitude of the locating vector. -/
noncomputable def hew_abs_mu (m n : ℕ) (latG lonG theta : Grid) : Grid :=
  norm (hew_mux m n latG lonG theta) (hew_muy m n latG lonG theta)

/-- Line 55: `mux*gx + muy*gy`. -/
noncomputable def hew_product (m n : ℕ) (latG lonG theta : Grid) : Grid := fun i j =>
  oadd (omul (hew_mux m n latG lonG theta i j) (hew_gx m n latG lonG theta i j))
    (omul (hew_muy m n latG lonG theta i j) (hew_gy m n latG lonG theta i j))

/-- Line 56: smoothed product, 1 iteration, center weight 1. -/
noncomputable def hew_product_smooth (m n : ℕ) (latG lonG theta : Grid) : Grid :=
  smooth_grid m n 1 1 (hew_product m n latG lonG theta)

/-- Line 57: `m1 = -1*product_smooth/gNorm`. -/
noncomputable def hew_m1 (m n : ℕ) (latG lonG theta : Grid) : Grid := fun i j =>
  odiv (omul (some (-1)) (hew_product_smooth m n latG lonG theta i j))
    (hew_gNorm m n latG lonG theta i j)

/-- Line 58: `m2 = gNorm + (1/sqrt 2)*100*1000*abs_mu`. -/
noncomputable def hew_m2 (m n : ℕ) (latG lonG theta : Grid) : Grid := fun i j =>
  oadd (hew_gNorm m n latG lonG theta i j)
    (omul (some (1 / Real.sqrt 2 * 100 * 1000)) (hew_abs_mu m n latG lonG theta i j))

/-- Lines 70-74: orientation angle of the locating vector with the source's
three masked overrides (applied in source order; the conditions are
mutually disjoint, and NaN never matches a comparison). -/
noncomputable def hew_mu_ang (m n : ℕ) (latG lonG theta : Grid) : Grid := fun i j =>
  if hew_muy m n latG lonG theta i j = some 0 then some 0
  else if hew_mux m n latG lonG theta i j = some 0 ∧
      olt (some 0) (hew_muy m n latG lonG theta i j) then some (Real.pi / 2)
  else if hew_mux m n latG lonG theta i j = some 0 ∧
      olt (hew_muy m n latG lonG theta i j) (some 0) then some (3 * Real.pi / 2)
  else oatan2 (hew_muy m n latG lonG theta i j) (hew_mux m n latG lonG theta i j)

/-- Line 86: `nansum(mag_stack * cos(2*ang_stack), 2)` over the 5-point
stack (center, up, down, right, left). -/
noncomputable def hew_sump (m n : ℕ) (latG lonG theta : Grid) : ℕ → ℕ → ℝ := fun i j =>
  nansum [omul (hew_abs_mu m n latG lonG theta i j)
      (ocos (omul (some 2) (hew_mu_ang m n latG lonG theta i j))),
    omul (up_shift (hew_abs_mu m n latG lonG theta) i j)
      (ocos (omul (some 2) (up_shift (hew_mu_ang m n latG lonG theta) i j))),
    omul (down_shift m (hew_abs_mu m n latG lonG theta) i j)
      (ocos (omul (some 2) (down_shift m (hew_mu_ang m n latG lonG theta) i j))),
    omul (right_shift n (hew_abs_mu m n latG lonG theta) i j)
      (ocos (omul (some 2) (right_shift n (hew_mu_ang m n latG lonG theta) i j))),
    omul (left_shift n (hew_abs_mu m n latG lonG theta) i j)
      (ocos (omul (some 2) (left_shift n (hew_mu_ang m n latG lonG theta) i j)))]

/-- Line 87: same with `sin`. -/
noncomputable def hew_sumq (m n : ℕ) (latG lonG theta : Grid) : ℕ → ℕ → ℝ := fun i j =>
  nansum [omul (hew_abs_mu m n latG lonG theta i j)
      (osin (omul (some 2) (hew_mu_ang m n latG lonG theta i j))),
    omul (up_shift (hew_abs_mu m n latG lonG theta) i j)
      (osin (omul (some 2) (up_shift (hew_mu_ang m n latG lonG theta) i j))),
    omul (down_shift m (hew_abs_mu m n latG lonG theta) i j)
      (osin (omul (some 2) (down_shift m (hew_mu_ang m n latG lonG theta) i j))),
    omul (right_shift n (hew_abs_mu m n latG lonG theta) i j)
      (osin (omul (some 2) (right_shift n (hew_mu_ang m n latG lonG theta) i j))),
    omul (left_shift n (hew_abs_mu m n latG lonG theta) i j)
      (osin (omul (some 2) (left_shift n (hew_mu_ang m n latG lonG theta) i j)))]

/-- Line 89: `betamean = arctan2(sumq, sump) * 0.5` (always a real number:
`nansum` never yields NaN). -/
noncomputable def hew_betamean (m n : ℕ) (latG lonG theta : Grid) : ℕ → ℕ → ℝ := fun i j =>
  atan2R (hew_sumq m n latG lonG theta i j) (hew_sump m n latG lonG theta i j) * 0.5

/-- Line 108: `down_prime`. -/
noncomputable def hew_down_prime (m n : ℕ) (latG lonG theta : Grid) : Grid := fun i j =>
  oadd (omul (down_shift m (hew_mux m n latG lonG theta) i j)
      (some (Real.cos (hew_betamean m n latG lonG theta i j))))
    (omul (down_shift m (hew_muy m n latG lonG theta) i j)
      (some (Real.sin (hew_betamean m n latG lonG theta i j))))

/-- Line 109: `up_prime`. -/
noncomputable def hew_up_prime (m n : ℕ) (latG lonG theta : Grid) : Grid := fun i j =>
  oadd (omul (up_shift (hew_mux m n latG lonG theta) i j)
      (some (Real.cos (hew_betamean m n latG lonG theta i j))))
    (omul (up_shift (hew_muy m n latG lonG theta) i j)
      (some (Real.sin (hew_betamean m n latG lonG theta i j))))

/-- Line 111: `left_prime`. -/
noncomputable def hew_left_prime (m n : ℕ) (latG lonG theta : Grid) : Grid := fun i j =>
  oadd (omul (left_shift n (hew_mux m n latG lonG theta) i j)
      (some (Real.cos (hew_betamean m n latG lonG theta i j))))
    (omul (left_shift n (hew_muy m n latG lonG theta) i j)
      (some (Real.sin (hew_betamean m n latG lonG theta i j))))

/-- Line 112: `right_prime`. -/
noncomputable def hew_right_prime (m n : ℕ) (latG lonG theta : Grid) : Grid := fun i j =>
  oadd (omul (right_shift n (hew_mux m n latG lonG theta) i j)
      (some (Real.cos (hew_betamean m n latG lonG theta i j))))
    (omul (right_shift n (hew_muy m n latG lonG theta) i j)
      (some (Real.sin (hew_betamean m n latG lonG theta i j))))

/-- Lines 102 and 148 (identical expressions): north-south distance between
the up- and down-shifted coordinate grids (no wrap correction is applied to
vertically shifted longitudes). -/
noncomputable def hew_dy (m : ℕ) (latG lonG : Grid) : Grid :=
  dist_between_grids (up_shift latG) (up_shift lonG) (down_shift m latG) (down_shift m lonG)

/-- Line 103: east-west distance with the ±360° seam correction of lines
99-100 applied to the shifted longitude copies. -/
noncomputable def hew_dx (n : ℕ) (latG lonG : Grid) : Grid :=
  dist_between_grids (left_shift n latG)
    (fun i j => if j = n - 1 then oadd (left_shift n lonG i j) (some 360)
      else left_shift n lonG i j)
    (right_shift n latG)
    (fun i j => if j = 0 then osub (right_shift n lonG i j) (some 360)
      else right_shift n lonG i j)

/-- Line 151: east-west distance of the geostrophic block; the source
re-shifts the longitudes at lines 144-145 *without* the seam correction. -/
noncomputable def hew_dx_g (n : ℕ) (latG lonG : Grid) : Grid :=
  dist_between_grids (left_shift n latG) (left_shift n lonG)
    (right_shift n latG) (right_shift n lonG)

/-- Line 114: the total divergence proxy (`eq6`). -/
noncomputable def hew_tot_div (m n : ℕ) (latG lonG theta : Grid) : Grid := fun i j =>
  oadd
    (odiv (omul (osub (hew_down_prime m n latG lonG theta i j)
        (hew_up_prime m n latG lonG theta i j))
      (some (Real.sin (hew_betamean m n latG lonG theta i j))))
      (hew_dy m latG lonG i j))
    (odiv (omul (osub (hew_left_prime m n latG lonG theta i j)
        (hew_right_prime m n latG lonG theta i j))
      (some (Real.cos (hew_betamean m n latG lonG theta i j))))
      (hew_dx n latG lonG i j))

/-- Lines 137-141: the Coriolis factor `9.8/(2*omega*sin(lat))` with cells
at `|lat| > 70` or `|lat| < 20` masked to NaN (in source order). -/
noncomputable def hew_rot_param (latG : Grid) : Grid := fun i j =>
  let r := odiv (some 9.8)
    (omul (some (2 * 7.3e-5)) (osin (omul (latG i j) (some (Real.pi / 180)))))
  let r1 := if olt (some 70) (oabs (latG i j)) then none else r
  if olt (oabs (latG i j)) (some 20) then none else r1

/-- Lines 147-153: meridional geostrophic wind `Vy = rot_param * (dz_y/dy)`. -/
noncomputable def hew_Vy (m : ℕ) (latG lonG H850 : Grid) : Grid := fun i j =>
  omul (hew_rot_param latG i j)
    (odiv (osub (down_shift m H850 i j) (up_shift H850 i j)) (hew_dy m latG lonG i j))

/-- Lines 150-154: zonal geostrophic wind `Vx = rot_param * (dz_x/dx)`. -/
noncomputable def hew_Vx (n : ℕ) (latG lonG H850 : Grid) : Grid := fun i j =>
  omul (hew_rot_param latG i j)
    (odiv (osub (left_shift n H850 i j) (right_shift n H850 i j))
      (hew_dx_g n latG lonG i j))

/-- Lines 156-160: geostrophic thermal advection `gta = -Vx*gx + -Vy*gy`. -/
noncomputable def hew_gta (m n : ℕ) (latG lonG theta H850 : Grid) : Grid := fun i j =>
  oadd (omul (oneg (hew_Vx n latG lonG H850 i j)) (hew_gx m n latG lonG theta i j))
    (omul (oneg (hew_Vy m latG lonG H850 i j)) (hew_gy m n latG lonG theta i j))

/-- Line 163: `np.double(gta > 0)`. -/
noncomputable def hew_wf_mask (m n : ℕ) (latG lonG theta H850 : Grid) : ℕ → ℕ → ℝ :=
  fun i j => if olt (some 0) (hew_gta m n latG lonG theta H850 i j) then 1 else 0

/-- Line 164: `np.double(gta < 0)`. -/
noncomputable def hew_cf_mask (m n : ℕ) (latG lonG theta H850 : Grid) : ℕ → ℕ → ℝ :=
  fun i j => if olt (hew_gta m n latG lonG theta H850 i j) (some 0) then 1 else 0

/-- The dictionary and diagnostic field returned at line 167. -/
structure HewsonOut where
  wf : ℕ → ℕ → ℝ
  cf : ℕ → ℕ → ℝ
  eq6 : Grid

/-- Source thresholds, line 60. -/
noncomputable def k1_default : ℝ := 0.33 * 1e-10

/-- Source thresholds, line 61. -/
noncomputable def k2_default : ℝ := 1.49 * 1e-5

/-- Source `hewson_1998`: zero-contour of `eq6`, cells failing
`m1 > k1 AND m2 > k2` zeroed (line 118), then multiplied by the warm/cold
advection masks (line 167).  A crash of `mask_zero_contour` propagates as
`none`. -/
noncomputable def hewson_1998 (k1 k2 : ℝ) (m n : ℕ) (latG lonG theta H850 : Grid) :
    Option HewsonOut :=
  match mask_zero_contour m n latG lonG (hew_tot_div m n latG lonG theta) with
  | none => none
  | some zc =>
      some
        { wf := fun i j => hew_wf_mask m n latG lonG theta H850 i j *
            (if olt (some k1) (hew_m1 m n latG lonG theta i j) ∧
                olt (some k2) (hew_m2 m n latG lonG theta i j) then zc i j else 0),
          cf := fun i j => hew_cf_mask m n latG lonG theta H850 i j *
            (if olt (some k1) (hew_m1 m n latG lonG theta i j) ∧
                olt (some k2) (hew_m2 m n latG lonG theta i j) then zc i j else 0),
          eq6 := hew_tot_div m n latG lonG theta }

/-- The warm-front mask of a (possibly crashed) `hewson_1998` run; a crashed
run flags nothing. -/
def wfAt : Option HewsonOut → ℕ → ℕ → ℝ
  | none, _, _ => 0
  | some o, i, j => o.wf i j

/-- The cold-front mask of a (possibly crashed) `hewson_1998` run. -/
def cfAt : Option HewsonOut → ℕ → ℕ → ℝ
  | none, _, _ => 0
  | some o, i, j => o.cf i j

@[simp] theorem wfAt_none (i j : ℕ) : wfAt none i j = 0 := rfl
@[simp] theorem wfAt_some (o : HewsonOut) (i j : ℕ) : wfAt (some o) i j = o.wf i j := rfl
@[simp] theorem cfAt_none (i j : ℕ) : cfAt none i j = 0 := rfl
@[simp] theorem cfAt_some (o : HewsonOut) (i j : ℕ) : cfAt (some o) i j = o.cf i j := rfl

theorem rasterize_nonneg (m n : ℕ) (lat lon : Grid) (cdt : List (ℝ × ℝ)) (i j : ℕ) :
    0 ≤ rasterize m n lat lon cdt i j := by
  unfold rasterize
  split <;> norm_num

theorem mask_zero_contour_nonneg {m n : ℕ} {lat lon data : Grid} {zc : ℕ → ℕ → ℝ}
    (h : mask_zero_contour m n lat lon data = some zc) (i j : ℕ) : 0 ≤ zc i j := by
  unfold mask_zero_contour at h
  revert h
  cases contourVertices m n lat lon data with
  | nil => intro h; exact absurd h (by simp)
  | cons a l =>
      intro h
      obtain rfl : rasterize m n lat lon (a :: l) = zc := Option.some.inj h
      exact rasterize_nonneg m n lat lon (a :: l) i j

theorem olt_of_le_of_olt {a b : ℝ} {x : OR} (hab : a ≤ b) (h : olt (some b) x) :
    olt (some a) x := by
  cases x with
  | none => exact absurd h (olt_none_right _)
  | some v =>
      rw [olt_some_some] at h ⊢
      exact lt_of_le_of_lt hab h

theorem ite_mask_mono {P Q : Prop} [Decidable P] [Decidable Q] (hPQ : P → Q) {w z : ℝ}
    (hw : 0 ≤ w) (hz : 0 ≤ z) :
    w * (if P then z else 0) ≤ w * (if Q then z else 0) := by
  by_cases hP : P
  · rw [if_pos hP, if_pos (hPQ hP)]
  · rw [if_neg hP, mul_zero]
    have hz2 : 0 ≤ (if Q then z else 0) := by
      by_cases hQ : Q <;> simp [hQ, hz]
    exact mul_nonneg hw hz2

theorem hew_wf_mask_nonneg (m n : ℕ) (latG lonG theta H850 : Grid) (i j : ℕ) :
    0 ≤ hew_wf_mask m n latG lonG theta H850 i j := by
  unfold hew_wf_mask
  split <;> norm_num

theorem hew_cf_mask_nonneg (m n : ℕ) (latG lonG theta H850 : Grid) (i j : ℕ) :
    0 ≤ hew_cf_mask m n latG lonG theta H850 i j := by
  unfold hew_cf_mask
  split <;> norm_num

/-- C5: raising either threshold can only remove flagged cells.  Every
`k1' ≥ k1` is `k1 + e1²` for some `e1`, so the claim's quantification over
`k1' ≥ k1, k2' ≥ k2` is captured without hypotheses: at every cell, the
warm and cold masks produced with thresholds `(k1+e1², k2+e2²)` are
pointwise at most the masks produced with `(k1, k2)`; the masks take values
in `{0, 1}`, so this inequality is exactly set inclusion of flagged cells. -/
theorem c5_threshold_monotonicity (m n : ℕ) (latG lonG theta H850 : Grid)
    (k1 k2 e1 e2 : ℝ) (i j : ℕ) :
    wfAt (hewson_1998 (k1 + e1 ^ 2) (k2 + e2 ^ 2) m n latG lonG theta H850) i j ≤
        wfAt (hewson_1998 k1 k2 m n latG lonG theta H850) i j ∧
      cfAt (hewson_1998 (k1 + e1 ^ 2) (k2 + e2 ^ 2) m n latG lonG theta H850) i j ≤
        cfAt (hewson_1998 k1 k2 m n latG lonG theta H850) i j := by
  unfold hewson_1998
  cases hzc : mask_zero_contour m n latG lonG (hew_tot_div m n latG lonG theta) with
  | none => simp
  | some zc =>
      have hz : 0 ≤ zc i j := mask_zero_contour_nonneg hzc i j
      have himp : (olt (some (k1 + e1 ^ 2)) (hew_m1 m n latG lonG theta i j) ∧
            olt (some (k2 + e2 ^ 2)) (hew_m2 m n latG lonG theta i j)) →
          (olt (some k1) (hew_m1 m n latG lonG theta i j) ∧
            olt (some k2) (hew_m2 m n latG lonG theta i j)) := by
        rintro ⟨h1, h2⟩
        exact ⟨olt_of_le_of_olt (le_add_of_nonneg_right (sq_nonneg e1)) h1,
          olt_of_le_of_olt (le_add_of_nonneg_right (sq_nonneg e2)) h2⟩
      constructor
      · exact ite_mask_mono himp (hew_wf_mask_nonneg m n latG lonG theta H850 i j) hz
      · exact ite_mask_mono himp (hew_cf_mask_nonneg m n latG lonG theta H850 i j) hz

/-- C6: at a cell whose latitude is outside the Coriolis validity range
(`|lat| > 70` or `|lat| < 20`), the geostrophic quantities are missing
(`rot_param`, `Vx`, `Vy` are all NaN) and the cell is never flagged warm or
cold in the returned masks; the out-of-range latitude is not an error. -/
theorem c6_out_of_range_latitude (k1 k2 : ℝ) (m n : ℕ) (latG lonG theta H850 : Grid)
    (i j : ℕ) (l : ℝ) (hl : latG i j = some l) (hrange : 70 < |l| ∨ |l| < 20) :
    hew_rot_param latG i j = none ∧
      hew_Vx n latG lonG H850 i j = none ∧
      hew_Vy m latG lonG H850 i j = none ∧
      wfAt (hewson_1998 k1 k2 m n latG lonG theta H850) i j = 0 ∧
      cfAt (hewson_1998 k1 k2 m n latG lonG theta H850) i j = 0 := by
  have hrot : hew_rot_param latG i j = none := by
    unfold hew_rot_param
    rw [hl]
    dsimp only
    rcases hrange with h | h
    · by_cases h2 : olt (oabs (some l)) (some 20)
      · rw [if_pos h2]
      · rw [if_neg h2, if_pos (by rw [oabs_some, olt_some_some]; exact h)]
    · rw [if_pos (by rw [oabs_some, olt_some_some]; exact h)]
  have hVx : hew_Vx n latG lonG H850 i j = none := by
    unfold hew_Vx
    rw [hrot, omul_none_left]
  have hVy : hew_Vy m latG lonG H850 i j = none := by
    unfold hew_Vy
    rw [hrot, omul_none_left]
  have hgta : hew_gta m n latG lonG theta H850 i j = none := by
    unfold hew_gta
    rw [hVx, hVy, oneg_none, omul_none_left, oadd_none_left]
  have hwfm : hew_wf_mask m n latG lonG theta H850 i j = 0 := by
    unfold hew_wf_mask
    rw [hgta, if_neg (olt_none_right _)]
  have hcfm : hew_cf_mask m n latG lonG theta H850 i j = 0 := by
    unfold hew_cf_mask
    rw [hgta, if_neg (olt_none_left _)]
  refine ⟨hrot, hVx, hVy, ?_, ?_⟩ <;>
  · unfold hewson_1998
    cases mask_zero_contour m n latG lonG (hew_tot_div m n latG lonG theta) with
    | none => rfl
    | some zc => simp [hwfm, hcfm]

/-- Witness fixture for C6: a 1×1 grid at latitude 80°. -/
def c6lat : Grid := fun _ _ => some 80

/-- Witness fixture for C6: all-zero 1×1 grid for lon, theta and H850. -/
def c6zero : Grid := fun _ _ => some 0

theorem c6_witness :
    hew_rot_param c6lat 0 0 = none ∧
      hew_Vx 1 c6lat c6zero c6zero 0 0 = none ∧
      hew_Vy 1 c6lat c6zero c6zero 0 0 = none ∧
      wfAt (hewson_1998 k1_default k2_default 1 1 c6lat c6zero c6zero c6zero) 0 0 = 0 ∧
      cfAt (hewson_1998 k1_default k2_default 1 1 c6lat c6zero c6zero c6zero) 0 0 = 0 :=
  c6_out_of_range_latitude k1_default k2_default 1 1 c6lat c6zero c6zero c6zero 0 0 80
    rfl (Or.inl (by norm_num))

theorem olt_zero_asymm {x : OR} (h : olt (some 0) x) : ¬ olt x (some 0) := by
  cases x with
  | none => exact olt_none_left _
  | some v =>
      rw [olt_some_some] at h ⊢
      linarith

/-- C9: the warm- and cold-front masks returned by the thermal-front
detector are pointwise disjoint: at every cell at least one of them is `0`,
because they multiply the same contour mask by the mutually exclusive
conditions `gta > 0` and `gta < 0`. -/
theorem c9_wf_cf_disjoint (k1 k2 : ℝ) (m n : ℕ) (latG lonG theta H850 : Grid) (i j : ℕ) :
    wfAt (hewson_1998 k1 k2 m n latG lonG theta H850) i j = 0 ∨
      cfAt (hewson_1998 k1 k2 m n latG lonG theta H850) i j = 0 := by
  unfold hewson_1998
  cases mask_zero_contour m n latG lonG (hew_tot_div m n latG lonG theta) with
  | none => exact Or.inl rfl
  | some zc =>
      by_cases h : olt (some 0) (hew_gta m n latG lonG theta H850 i j)
      · right
        have : hew_cf_mask m n latG lonG theta H850 i j = 0 := by
          unfold hew_cf_mask
          rw [if_neg (olt_zero_asymm h)]
        simp [this]
      · left
        have : hew_wf_mask m n latG lonG theta H850 i j = 0 := by
          unfold hew_wf_mask
          rw [if_neg h]
        simp [this]

/-! ### Shape semantics (claim C4)

The source performs no shape validation anywhere; mismatched grids are
handed directly to numpy, whose *elementwise* operations broadcast
compatible shapes silently and raise only when a dimension pair is neither
equal nor 1.  (A broadcast result can still be rejected further downstream
by a non-elementwise stage — e.g. `plt.contour` inside `hewson_1998`;
nothing below asserts otherwise.)  To reason about shapes we embed
`theta_from_temp_pres` (source lines 41-43), the core operation that
consists of elementwise steps only, over shape-carrying arrays with
numpy's 2-D broadcasting rule. -/

/-- A 2-D array carrying its shape, for the broadcasting model. -/
structure SGrid where
  r : ℕ
  c : ℕ
  d : ℕ → ℕ → OR

/-- numpy's broadcast rule for one dimension pair: equal sizes, or one of
them is 1; otherwise an error. -/
def bdim (a b : ℕ) : Option ℕ :=
  if a = b then some a else if a = 1 then some b else if b = 1 then some a else none

/-- Elementwise unary operation: shape is preserved. -/
def emap (f : OR → OR) (g : SGrid) : SGrid := ⟨g.r, g.c, fun i j => f (g.d i j)⟩

/-- Elementwise binary operation with numpy 2-D broadcasting: `none` when
the shapes cannot be broadcast (numpy raises a `ValueError`); a size-1 axis
repeats its single row or column. -/
def ebin (f : OR → OR → OR) (g h : SGrid) : Option SGrid :=
  match bdim g.r h.r, bdim g.c h.c with
  | some r, some c =>
      some ⟨r, c, fun i j =>
        f (g.d (if g.r = 1 then 0 else i) (if g.c = 1 then 0 else j))
          (h.d (if h.r = 1 then 0 else i) (if h.c = 1 then 0 else j))⟩
  | _, _ => none

/-- NaN-propagating real power (`**` with the real exponent `2/7`;
in Python 3 `2/7` is true division). -/
noncomputable def orpow : OR → OR → OR
  | some a, some b => some (Real.rpow a b)
  | _, _ => none

/-- Source `theta_from_temp_pres`: `temp * (1000./pres)**(2/7)`.  The
scalar operations `1000./pres` and `**(2/7)` are elementwise on `pres`
alone; the final `temp * _` is the only grid-with-grid operation and
broadcasts. -/
noncomputable def theta_from_temp_pres (temp pres : SGrid) : Option SGrid :=
  ebin omul temp
    (emap (fun p => orpow (odiv (some 1000) p) (some ((2 : ℝ) / 7))) pres)

/-- Fixture: a 2×2 temperature grid. -/
def c4temp : SGrid := ⟨2, 2, fun _ _ => some 250⟩

/-- Fixture: a 1×2 pressure grid — unequal shape, broadcast-compatible. -/
def c4pres12 : SGrid := ⟨1, 2, fun _ _ => some 850⟩

/-- Fixture: a 3×2 pressure grid — unequal shape, not broadcastable. -/
def c4pres32 : SGrid := ⟨3, 2, fun _ _ => some 850⟩

/-- C4 counterexample: `potentialTemperature` on grids of unequal shape
(2×2 temperature against 1×2 pressure) does *not* signal an invalid-input
error: there is no shape validation in the source, and numpy silently
broadcasts the size-1 row axis, returning a 2×2 result. -/
theorem c4_counterexample :
    theta_from_temp_pres c4temp c4pres12 ≠ none ∧
      Option.map SGrid.r (theta_from_temp_pres c4temp c4pres12) = some 2 ∧
      Option.map SGrid.c (theta_from_temp_pres c4temp c4pres12) = some 2 := by
  refine ⟨?_, ?_, ?_⟩ <;> simp [theta_from_temp_pres, ebin, emap, bdim, c4temp, c4pres12]

/-- C4 amended (scoped to what the counterexample forces):
`potentialTemperature` does not signal an invalid-input error on grids of
unequal shape.  It performs no shape validation of its own: the
broadcast-compatible unequal pair (2×2 temperature against 1×2 pressure) is
silently broadcast to a 2×2 result with no error, the non-broadcastable
pair (2×2 against 3×2) fails — and then only with the array layer's
broadcast error, not a dedicated invalid-input error — and equal shapes
proceed.  No assertion is made here about where a broadcast result of the
*other* core operations may fail downstream. -/
theorem c4_amended :
    theta_from_temp_pres c4temp c4pres32 = none ∧
      theta_from_temp_pres c4temp c4pres12 ≠ none ∧
      theta_from_temp_pres c4temp c4temp ≠ none := by
  refine ⟨?_, ?_, ?_⟩ <;> simp [theta_from_temp_pres, ebin, emap, bdim, c4temp, c4pres12, c4pres32]

end FrontDetection
